import Mathlib

/-!
Verification of the domain-manager kit's API request/response mapping and
purchase flow, shallowly embedded from the Python source
(`src/api/godaddy_client.py`, `src/ui/cli.py`, `src/utils/validators.py`).

JSON values exchanged with the registrar API are modelled by the inductive
`Json`; Python dictionaries become association lists inside `Json.obj`, and
Python's `k in d` / `d.get(k, dflt)` become `Json.hasKey` / `Json.getD`.
-/

namespace GoDaddy

/-- JSON values as produced and consumed by the client.  Python dicts are
`obj` (an association list of string keys), lists are `arr`, and the scalar
payloads that appear in the responses are strings, integers, booleans and
null. -/
inductive Json where
  | null
  | bool (b : Bool)
  | num (n : Int)
  | str (s : String)
  | arr (items : List Json)
  | obj (fields : List (String × Json))

/-- Python's `key in value`: membership of a key in a dict, or of the string
itself among a list's elements. -/
def Json.hasKey : Json → String → Bool
  | Json.obj kvs, k => kvs.any (fun p => p.1 == k)
  | Json.arr xs, k => xs.any (fun v => match v with | Json.str s => s == k | _ => false)
  | _, _ => false

/-- Dictionary lookup: `some` value of the first binding of the key, `none`
for a missing key or a non-dict. -/
def Json.lookup : Json → String → Option Json
  | Json.obj kvs, k => (kvs.find? (fun p => p.1 == k)).map (fun p => p.2)
  | _, _ => none

/-- Python's `value.get(key, dflt)`. -/
def Json.getD (j : Json) (k : String) (dflt : Json) : Json :=
  (j.lookup k).getD dflt

theorem Json.lookup_eq_none_of_hasKey_false (j : Json) (k : String)
    (h : j.hasKey k = false) : j.lookup k = none := by
  cases j <;> simp_all [Json.hasKey, Json.lookup, List.find?_eq_none]
  exact h

theorem Json.getD_of_hasKey_false (j : Json) (k : String) (dflt : Json)
    (h : j.hasKey k = false) : j.getD k dflt = dflt := by
  simp [Json.getD, Json.lookup_eq_none_of_hasKey_false j k h]

/-- Response classification performed at the end of
`GoDaddyClient.purchase_domain` (`src/api/godaddy_client.py`, lines 229-248):
an `error` key returns the result unmodified; otherwise a `paymentUrl` key
produces the pending-payment result with `orderId` and `paymentUrl` read via
`.get` with empty-string defaults; otherwise the result passes through. -/
def purchase_domain_classify (result : Json) : Json :=
  if result.hasKey "error" then
    result
  else if result.hasKey "paymentUrl" then
    Json.obj [
      ("status", Json.str "pending_payment"),
      ("orderId", result.getD "orderId" (Json.str "")),
      ("paymentUrl", result.getD "paymentUrl" (Json.str "")),
      ("message", Json.str "Please complete the payment to finalize domain purchase")]
  else
    result

end GoDaddy

/-- C1: a purchase response containing both an `error` key and a `paymentUrl`
key is classified as a failure: `purchase_domain` returns the error result
unmodified, so the error key takes precedence over the payment URL. -/
theorem GoDaddy.purchase_error_takes_precedence (r : GoDaddy.Json)
    (he : r.hasKey "error" = true) (_hp : r.hasKey "paymentUrl" = true) :
    GoDaddy.purchase_domain_classify r = r := by
  simp [GoDaddy.purchase_domain_classify, he]

/-- Witness for C1 at a concrete response carrying both keys. -/
theorem GoDaddy.purchase_error_takes_precedence_witness :
    (GoDaddy.Json.obj [("error", GoDaddy.Json.str "DUPLICATE_ORDER"),
        ("paymentUrl", GoDaddy.Json.str "https://pay.example/1")]).hasKey "error" = true ∧
    GoDaddy.purchase_domain_classify
        (GoDaddy.Json.obj [("error", GoDaddy.Json.str "DUPLICATE_ORDER"),
          ("paymentUrl", GoDaddy.Json.str "https://pay.example/1")])
      = GoDaddy.Json.obj [("error", GoDaddy.Json.str "DUPLICATE_ORDER"),
          ("paymentUrl", GoDaddy.Json.str "https://pay.example/1")] :=
  ⟨rfl, GoDaddy.purchase_error_takes_precedence _ rfl rfl⟩

/-- C5: a purchase response containing a `paymentUrl` key and no `error` key is
classified as pending payment: the result has status `pending_payment`, the
response's `paymentUrl` and its `orderId`, and a missing `orderId` key defaults
to the empty string. -/
theorem GoDaddy.purchase_paymentUrl_pending (r : GoDaddy.Json)
    (he : r.hasKey "error" = false) (hp : r.hasKey "paymentUrl" = true) :
    GoDaddy.purchase_domain_classify r = GoDaddy.Json.obj [
      ("status", GoDaddy.Json.str "pending_payment"),
      ("orderId", r.getD "orderId" (GoDaddy.Json.str "")),
      ("paymentUrl", r.getD "paymentUrl" (GoDaddy.Json.str "")),
      ("message", GoDaddy.Json.str "Please complete the payment to finalize domain purchase")] ∧
    (r.hasKey "orderId" = false → r.getD "orderId" (GoDaddy.Json.str "") = GoDaddy.Json.str "") := by
  constructor
  · simp [GoDaddy.purchase_domain_classify, he, hp]
  · intro ho
    exact GoDaddy.Json.getD_of_hasKey_false r "orderId" _ ho

/-- Witness for C5 at a concrete response with a payment URL and no order id. -/
theorem GoDaddy.purchase_paymentUrl_pending_witness :
    GoDaddy.purchase_domain_classify
        (GoDaddy.Json.obj [("paymentUrl", GoDaddy.Json.str "https://pay.example/2")])
      = GoDaddy.Json.obj [
          ("status", GoDaddy.Json.str "pending_payment"),
          ("orderId", (GoDaddy.Json.obj [("paymentUrl", GoDaddy.Json.str "https://pay.example/2")]).getD
              "orderId" (GoDaddy.Json.str "")),
          ("paymentUrl", (GoDaddy.Json.obj [("paymentUrl", GoDaddy.Json.str "https://pay.example/2")]).getD
              "paymentUrl" (GoDaddy.Json.str "")),
          ("message", GoDaddy.Json.str "Please complete the payment to finalize domain purchase")] ∧
    (GoDaddy.Json.obj [("paymentUrl", GoDaddy.Json.str "https://pay.example/2")]).getD
        "orderId" (GoDaddy.Json.str "") = GoDaddy.Json.str "" :=
  ⟨(GoDaddy.purchase_paymentUrl_pending
      (GoDaddy.Json.obj [("paymentUrl", GoDaddy.Json.str "https://pay.example/2")]) rfl rfl).1,
   (GoDaddy.purchase_paymentUrl_pending
      (GoDaddy.Json.obj [("paymentUrl", GoDaddy.Json.str "https://pay.example/2")]) rfl rfl).2 rfl⟩

namespace GoDaddy

/-- A flat contact record as collected by the CLI: an association list of
field name to entered string (`addressLine2` may be absent when the user
leaves the optional field out). -/
abbrev ContactRecord := List (String × String)

/-- Python's `contact_info.get(key, dflt)` on the flat record. -/
def getField (c : ContactRecord) (k dflt : String) : String :=
  match c.find? (fun p => p.1 == k) with
  | some p => p.2
  | none => dflt

/-- Python's `key in contact_info` on the flat record. -/
def hasField (c : ContactRecord) (k : String) : Bool :=
  c.any (fun p => p.1 == k)

theorem getField_of_hasField_false (c : ContactRecord) (k dflt : String)
    (h : hasField c k = false) : getField c k dflt = dflt := by
  have : c.find? (fun p => p.1 == k) = none := by
    simp_all [hasField, List.find?_eq_none]
    exact h
  simp [getField, this]

/-- The registrar-format contact sub-object built from a flat contact record.
This mapping appears verbatim twice in the source: `formatted_contact` in
`GoDaddyClient.purchase_domain` (`src/api/godaddy_client.py`, lines 198-211)
and in `CLI.collect_contact_info` (`src/ui/cli.py`, lines 293-306). -/
def format_contact (c : ContactRecord) : Json :=
  Json.obj [
    ("nameFirst", Json.str (getField c "firstName" "")),
    ("nameLast", Json.str (getField c "lastName" "")),
    ("email", Json.str (getField c "email" "")),
    ("phone", Json.str (getField c "phone" "")),
    ("addressMailing", Json.obj [
      ("address1", Json.str (getField c "addressLine1" "")),
      ("address2", Json.str (getField c "addressLine2" "")),
      ("city", Json.str (getField c "city" "")),
      ("state", Json.str (getField c "state" "")),
      ("postalCode", Json.str (getField c "postalCode" "")),
      ("country", Json.str (getField c "country" "US"))])]

/-- The value returned by `CLI.collect_contact_info` (`src/ui/cli.py`,
lines 308-314): the one formatted contact reused for all four registrar
contact roles. -/
def collect_contact_result (c : ContactRecord) : Json :=
  Json.obj [
    ("contactAdmin", format_contact c),
    ("contactBilling", format_contact c),
    ("contactRegistrant", format_contact c),
    ("contactTech", format_contact c)]

end GoDaddy

/-- C2: for every flat contact record, the formatted registrar sub-object maps
`firstName` to `nameFirst` and `lastName` to `nameLast`, carries `email` and
`phone` through unchanged, and nests the address fields under `addressMailing`
with `addressLine1` renamed to `address1` and `addressLine2` renamed to
`address2`; when `addressLine2` is absent from the record the formatted object
still contains the `address2` key, with the empty string as its value. -/
theorem GoDaddy.format_contact_mapping (c : GoDaddy.ContactRecord) :
    (GoDaddy.format_contact c).lookup "nameFirst"
        = some (GoDaddy.Json.str (GoDaddy.getField c "firstName" "")) ∧
    (GoDaddy.format_contact c).lookup "nameLast"
        = some (GoDaddy.Json.str (GoDaddy.getField c "lastName" "")) ∧
    (GoDaddy.format_contact c).lookup "email"
        = some (GoDaddy.Json.str (GoDaddy.getField c "email" "")) ∧
    (GoDaddy.format_contact c).lookup "phone"
        = some (GoDaddy.Json.str (GoDaddy.getField c "phone" "")) ∧
    ((GoDaddy.format_contact c).getD "addressMailing" GoDaddy.Json.null).lookup "address1"
        = some (GoDaddy.Json.str (GoDaddy.getField c "addressLine1" "")) ∧
    ((GoDaddy.format_contact c).getD "addressMailing" GoDaddy.Json.null).lookup "address2"
        = some (GoDaddy.Json.str (GoDaddy.getField c "addressLine2" "")) ∧
    (GoDaddy.hasField c "addressLine2" = false →
      ((GoDaddy.format_contact c).getD "addressMailing" GoDaddy.Json.null).lookup "address2"
        = some (GoDaddy.Json.str "")) := by
  refine ⟨rfl, rfl, rfl, rfl, rfl, rfl, fun h => ?_⟩
  simp [GoDaddy.format_contact, GoDaddy.Json.getD, GoDaddy.Json.lookup,
    GoDaddy.getField_of_hasField_false c "addressLine2" "" h]

/-- Witness for C2 at a concrete record that omits `addressLine2`. -/
theorem GoDaddy.format_contact_mapping_witness :
    GoDaddy.hasField [("firstName", "Ada"), ("addressLine1", "1 Main St")] "addressLine2" = false ∧
    ((GoDaddy.format_contact [("firstName", "Ada"), ("addressLine1", "1 Main St")]).getD
        "addressMailing" GoDaddy.Json.null).lookup "address2"
      = some (GoDaddy.Json.str "") :=
  ⟨rfl,
   (GoDaddy.format_contact_mapping [("firstName", "Ada"), ("addressLine1", "1 Main St")]).2.2.2.2.2.2
     rfl⟩

/-- C8: the purchase options built by the flow carry an identical formatted
contact sub-object in all four registrar contact roles: for every flat contact
record the four slots of `collect_contact_info`'s result are pairwise equal,
each holding the formatted contact. -/
theorem GoDaddy.contact_roles_identical (c : GoDaddy.ContactRecord) (r₁ r₂ : String)
    (h₁ : r₁ ∈ ["contactAdmin", "contactBilling", "contactRegistrant", "contactTech"])
    (h₂ : r₂ ∈ ["contactAdmin", "contactBilling", "contactRegistrant", "contactTech"]) :
    (GoDaddy.collect_contact_result c).lookup r₁
        = (GoDaddy.collect_contact_result c).lookup r₂ ∧
    (GoDaddy.collect_contact_result c).lookup r₁ = some (GoDaddy.format_contact c) := by
  fin_cases h₁ <;> fin_cases h₂ <;>
    simp [GoDaddy.collect_contact_result, GoDaddy.Json.lookup]

/-- Witness for C8 at two concrete distinct roles and a concrete record. -/
theorem GoDaddy.contact_roles_identical_witness :
    (GoDaddy.collect_contact_result [("firstName", "Ada")]).lookup "contactAdmin"
        = (GoDaddy.collect_contact_result [("firstName", "Ada")]).lookup "contactTech" ∧
    (GoDaddy.collect_contact_result [("firstName", "Ada")]).lookup "contactAdmin"
        = some (GoDaddy.format_contact [("firstName", "Ada")]) :=
  GoDaddy.contact_roles_identical [("firstName", "Ada")] "contactAdmin" "contactTech"
    (by simp) (by simp)

namespace GoDaddy

/-- The registration-period lookup table `period_options = {1: 1, 2: 2, 3: 3,
4: 5, 5: 10}` of `CLI.purchase_domain_flow` (`src/ui/cli.py`, line 368). -/
def period_options : List (Nat × Nat) := [(1, 1), (2, 2), (3, 3), (4, 5), (5, 10)]

/-- The year value `period_options[period_choice]` for a menu choice, `none`
when the choice is outside the table (the input loop only lets 1..5 through). -/
def periodFor (choice : Nat) : Option Nat :=
  (period_options.find? (fun p => p.1 == choice)).map (fun p => p.2)

/-- The `purchase_options` dict assembled by `CLI.purchase_domain_flow`
(`src/ui/cli.py`, lines 407-415): period, renewAuto and privacy, followed by
the collected contact entries. -/
def flow_purchase_options (period : Nat) (renewAuto privacy : Bool)
    (contacts : List (String × Json)) : Json :=
  Json.obj ([("period", Json.num period), ("renewAuto", Json.bool renewAuto),
    ("privacy", Json.bool privacy)] ++ contacts)

/-- Accept condition for the country field inside `CLI.collect_contact_info`
(`src/ui/cli.py`, lines 265-289): the field is required (empty re-prompts) and
any non-empty value whose length differs from 2 re-prompts; everything else is
accepted. -/
def country_accepted (value : String) : Bool :=
  if value.isEmpty then false
  else if value.length != 2 then false
  else true

/-- Modelled from the spec: an exactly-2-letter country code, the validation
the spec's words describe (two characters, both letters). -/
def is_two_letter_code (s : String) : Bool :=
  s.length == 2 && s.data.all (fun ch => ch.isAlpha)

/-- The tail of `GoDaddyClient.get_suggested_domains`
(`src/api/godaddy_client.py`, lines 293-298): an error result from
`_make_request` is replaced by the empty list, anything else passes through. -/
def get_suggested_classify (result : Json) : Json :=
  if result.hasKey "error" then Json.arr [] else result

end GoDaddy

/-- C4: the purchase flow maps registration-period menu choices 1..5 to the
year values 1, 2, 3, 5 and 10 respectively through the explicit
`period_options` table (boundary choice 1 gives 1 year and choice 5 gives 10
years), and whatever year value results is stored under the `period` key of
the purchase options sent on. -/
theorem GoDaddy.period_choice_table (renewAuto privacy : Bool)
    (contacts : List (String × GoDaddy.Json)) (y : Nat) :
    GoDaddy.periodFor 1 = some 1 ∧
    GoDaddy.periodFor 2 = some 2 ∧
    GoDaddy.periodFor 3 = some 3 ∧
    GoDaddy.periodFor 4 = some 5 ∧
    GoDaddy.periodFor 5 = some 10 ∧
    (GoDaddy.flow_purchase_options y renewAuto privacy contacts).lookup "period"
      = some (GoDaddy.Json.num y) := by
  refine ⟨rfl, rfl, rfl, rfl, rfl, ?_⟩
  simp [GoDaddy.flow_purchase_options, GoDaddy.Json.lookup]

/-- C9 counterexample: the string `12` is not a two-letter country code, yet
the contact-collection loop accepts it, because the code only checks that the
value is non-empty and has length 2. -/
theorem GoDaddy.country_accepted_cex :
    GoDaddy.country_accepted "12" = true ∧ GoDaddy.is_two_letter_code "12" = false := by
  constructor <;> decide

/-- C9 (amended): a country value is accepted if and only if it is non-empty
and exactly two characters long; no check that the characters are letters is
performed. -/
theorem GoDaddy.country_accepted_iff_length_two (value : String) :
    GoDaddy.country_accepted value = (!value.isEmpty && value.length == 2) := by
  by_cases he : value.isEmpty <;>
    by_cases hl : value.length = 2 <;>
      simp [GoDaddy.country_accepted, he, hl]

/-- C10: when the suggest request resolves to an error result,
`get_suggested_domains` returns the empty list instead of the error — the very
value a successful query with zero suggestions produces, so the two cases are
indistinguishable to the caller. -/
theorem GoDaddy.get_suggested_swallows_errors (r : GoDaddy.Json)
    (h : r.hasKey "error" = true) :
    GoDaddy.get_suggested_classify r = GoDaddy.Json.arr [] ∧
    GoDaddy.get_suggested_classify r = GoDaddy.get_suggested_classify (GoDaddy.Json.arr []) := by
  have harr : (GoDaddy.Json.arr []).hasKey "error" = false := rfl
  constructor <;> simp [GoDaddy.get_suggested_classify, h, harr]

/-- Witness for C10 at a concrete error result. -/
theorem GoDaddy.get_suggested_swallows_errors_witness :
    GoDaddy.get_suggested_classify (GoDaddy.Json.obj [("error", GoDaddy.Json.str "timeout")])
        = GoDaddy.Json.arr [] ∧
    GoDaddy.get_suggested_classify (GoDaddy.Json.obj [("error", GoDaddy.Json.str "timeout")])
        = GoDaddy.get_suggested_classify (GoDaddy.Json.arr []) :=
  GoDaddy.get_suggested_swallows_errors
    (GoDaddy.Json.obj [("error", GoDaddy.Json.str "timeout")]) rfl

namespace GoDaddy

/-- The keyword computed by `GoDaddyClient.get_suggested_domains`
(`src/api/godaddy_client.py`, line 283): `domain_name.split('.')[0]`, i.e. the
characters of the domain name before its first dot (the whole name when it
contains no dot). -/
def extract_keyword (domain_name : String) : String :=
  String.mk (domain_name.data.takeWhile (fun ch => ch != '.'))

/-- The query parameters built by `get_suggested_domains` (lines 285-288):
the keyword and the suggestion limit. -/
def suggest_params (domain_name : String) (limit : Nat) : List (String × String) :=
  [("query", extract_keyword domain_name), ("limit", toString limit)]

/-- Modelled from the spec: the domain name with its TLD stripped, i.e. with
its final dot-separated label and the dot before it removed. -/
def strip_tld (domain_name : String) : String :=
  String.mk (((domain_name.data.reverse.dropWhile (fun ch => ch != '.')).drop 1).reverse)

theorem takeWhile_append_no_dot (name tld : List Char) (hname : ('.' : Char) ∉ name) :
    (name ++ '.' :: tld).takeWhile (fun ch => ch != '.') = name := by
  induction name with
  | nil => simp [List.takeWhile_cons]
  | cons c cs ih =>
    have hc : c ≠ '.' := fun hcontra => hname (by simp [hcontra])
    have hcs : ('.' : Char) ∉ cs := fun hmem => hname (List.mem_cons_of_mem _ hmem)
    simp [List.takeWhile_cons, hc, ih hcs]

/-- Trailing-slash removal, Python's `rstrip("/")`. -/
def rstrip_slash (s : String) : String :=
  String.mk ((s.data.reverse.dropWhile (fun ch => ch == '/')).reverse)

/-- Python's `s.startswith(pre)`. -/
def starts_with (s pre : String) : Bool :=
  pre.data.isPrefixOf s.data

/-- URL normalization at the top of `GoDaddyClient._make_request`
(`src/api/godaddy_client.py`, lines 56-60): the literal `https://` is added
only when the configured URL does not start with `http`, then trailing
slashes are stripped. -/
def normalize_api_url (api_url : String) : String :=
  let u := if starts_with api_url "http" then api_url else "https://" ++ api_url
  rstrip_slash u

/-- The full request URL (`src/api/godaddy_client.py`, line 62): normalized
base, the fixed API-version segment and the endpoint. -/
def build_request_url (api_url api_version endpoint : String) : String :=
  normalize_api_url api_url ++ "/" ++ api_version ++ "/" ++ endpoint

/-- Modelled from the spec: normalization as the claim words it, adding the
`https://` scheme whenever that exact scheme is missing, then stripping
trailing slashes; kept for comparison with the source's `normalize_api_url`. -/
def normalize_api_url_spec (api_url : String) : String :=
  let u := if starts_with api_url "https://" then api_url else "https://" ++ api_url
  rstrip_slash u

end GoDaddy

/-- C7 counterexample: for `shop.example.com` the code's suggestion keyword is
`shop` (everything before the first dot), while the domain name with its TLD
stripped is `shop.example`; the two differ. -/
theorem GoDaddy.extract_keyword_cex :
    GoDaddy.extract_keyword "shop.example.com" = "shop" ∧
    GoDaddy.strip_tld "shop.example.com" = "shop.example" ∧
    GoDaddy.extract_keyword "shop.example.com" ≠ GoDaddy.strip_tld "shop.example.com" := by
  refine ⟨?_, ?_, ?_⟩ <;> decide

/-- C7 (amended): the suggestion query keyword equals the portion of the
domain name before its first dot; for a domain of the form `name.tld` whose
name part contains no dot (such as the spec's `myidea.com`) this coincides
with stripping the TLD. -/
theorem GoDaddy.suggest_keyword_amended (domain_name : String) (limit : Nat)
    (name tld : List Char) (hname : ('.' : Char) ∉ name) :
    GoDaddy.getField (GoDaddy.suggest_params domain_name limit) "query" ""
        = GoDaddy.extract_keyword domain_name ∧
    GoDaddy.extract_keyword (String.mk (name ++ '.' :: tld)) = String.mk name := by
  constructor
  · rfl
  · simp [GoDaddy.extract_keyword, GoDaddy.takeWhile_append_no_dot name tld hname]

/-- Witness for the amended C7 at the spec's own example `myidea.com`. -/
theorem GoDaddy.suggest_keyword_amended_witness :
    ('.' : Char) ∉ ['m', 'y', 'i', 'd', 'e', 'a'] ∧
    GoDaddy.extract_keyword (String.mk (['m', 'y', 'i', 'd', 'e', 'a'] ++ '.' :: ['c', 'o', 'm']))
      = String.mk ['m', 'y', 'i', 'd', 'e', 'a'] :=
  ⟨by decide,
   (GoDaddy.suggest_keyword_amended "myidea.com" 5 ['m', 'y', 'i', 'd', 'e', 'a'] ['c', 'o', 'm']
     (by decide)).2⟩

/-- C6 counterexample: for the configured base URL `http://api.godaddy.com`
the `https://` scheme is missing, yet normalization leaves the URL unchanged
(the code only tests for the weaker `http` start), unlike the spec-modelled
normalization that the claim describes. -/
theorem GoDaddy.normalize_api_url_cex :
    GoDaddy.starts_with "http://api.godaddy.com" "https://" = false ∧
    GoDaddy.normalize_api_url "http://api.godaddy.com" = "http://api.godaddy.com" ∧
    GoDaddy.normalize_api_url_spec "http://api.godaddy.com"
      = "https://http://api.godaddy.com" := by
  refine ⟨?_, ?_, ?_⟩ <;> decide

/-- C6 (amended): `_make_request` adds the `https://` scheme exactly when the
configured base URL does not already start with `http` (so explicit `http://`
URLs are kept as given), strips trailing slashes, and appends the API-version
segment and the endpoint. -/
theorem GoDaddy.build_request_url_amended (api_url api_version endpoint : String) :
    (GoDaddy.starts_with api_url "http" = false →
      GoDaddy.build_request_url api_url api_version endpoint =
        GoDaddy.rstrip_slash ("https://" ++ api_url) ++ "/" ++ api_version ++ "/" ++ endpoint) ∧
    (GoDaddy.starts_with api_url "http" = true →
      GoDaddy.build_request_url api_url api_version endpoint =
        GoDaddy.rstrip_slash api_url ++ "/" ++ api_version ++ "/" ++ endpoint) := by
  constructor <;> intro h <;>
    simp [GoDaddy.build_request_url, GoDaddy.normalize_api_url, h]

/-- Witness for the amended C6 at a scheme-less base URL. -/
theorem GoDaddy.build_request_url_amended_witness :
    GoDaddy.starts_with "api.godaddy.com" "http" = false ∧
    GoDaddy.build_request_url "api.godaddy.com" "v1" "domains/available" =
      GoDaddy.rstrip_slash ("https://" ++ "api.godaddy.com") ++ "/" ++ "v1" ++ "/"
        ++ "domains/available" :=
  ⟨by decide,
   (GoDaddy.build_request_url_amended "api.godaddy.com" "v1" "domains/available").1 (by decide)⟩

namespace GoDaddy

/-- An HTTP response as surfaced by the transport library to `_make_request`:
status code, body text, the JSON parse of the body (`response.json()` succeeds
exactly when `jsonBody` is `some`), and the message strings of the exceptions
the library raises about this response (`str` of the `HTTPError`, and of the
decode error when the body is not JSON). -/
structure HttpResponse where
  status : Nat
  text : String
  jsonBody : Option Json
  httpErrMsg : String
  jsonErrMsg : String

/-- Outcome of one transport attempt: a `RequestException` (connection error,
DNS failure, timeout) raised with no response available, or a response. -/
inductive SendResult where
  | exn (msg : String)
  | resp (r : HttpResponse)

/-- The `requests` library contract for `response.raise_for_status()`: it
raises `HTTPError` exactly for client-error (4xx) and server-error (5xx)
status codes. -/
def raise_for_status_raises (status : Nat) : Bool :=
  400 ≤ status && status < 600

/-- Python's `method.upper()` for the ASCII method names dispatched on. -/
def to_upper_ascii (s : String) : String :=
  String.mk (s.data.map Char.toUpper)

/-- The method dispatch of `_make_request` (`src/api/godaddy_client.py`,
lines 65-77). -/
def supported_method (m : String) : Bool :=
  to_upper_ascii m == "GET" || to_upper_ascii m == "POST" || to_upper_ascii m == "PUT" ||
    to_upper_ascii m == "PATCH" || to_upper_ascii m == "DELETE"

/-- `GoDaddyClient._make_request` (`src/api/godaddy_client.py`, lines 43-99)
as a function of the transport outcome.  An unsupported method or a raised
`RequestException` becomes an error dict; when `raise_for_status` raises, the
body's JSON parse is surfaced under `error`, falling back to the raw
`HTTPError` message string when the body is not JSON; a 2xx response returns
the parsed body (a 2xx parse failure raises the library's decode error, itself
a `RequestException`, and so also becomes an error dict), and an empty 2xx
body returns the synthetic `{success: true}`.  The function is total: no
branch re-raises to the caller. -/
def make_request (method : String) (send : SendResult) : Json :=
  if supported_method method then
    match send with
    | SendResult.exn msg => Json.obj [("error", Json.str msg)]
    | SendResult.resp r =>
      if raise_for_status_raises r.status then
        match r.jsonBody with
        | some j => Json.obj [("error", j)]
        | none => Json.obj [("error", Json.str r.httpErrMsg)]
      else if r.text.isEmpty then
        Json.obj [("success", Json.bool true)]
      else
        match r.jsonBody with
        | some j => j
        | none => Json.obj [("error", Json.str r.jsonErrMsg)]
  else
    Json.obj [("error", Json.str ("Unsupported HTTP method: " ++ method))]

end GoDaddy

/-- C3 counterexample: the claim promises an error result for every non-2xx
status, but `raise_for_status` only raises on 4xx/5xx, so a 304 response with
a JSON body is returned as that parsed body — a result carrying no `error`
key. -/
theorem GoDaddy.make_request_non2xx_cex :
    (304 < 200 ∨ 299 < 304) ∧
    GoDaddy.make_request "GET"
        (GoDaddy.SendResult.resp
          ⟨304, "{}", some (GoDaddy.Json.obj []), "304 Redirect", "Expecting value"⟩)
      = GoDaddy.Json.obj [] ∧
    (GoDaddy.Json.obj []).hasKey "error" = false := by
  refine ⟨by decide, rfl, rfl⟩

/-- C3 (amended): for every supported method, a transport failure (connection
error, DNS failure, timeout) and a 4xx/5xx HTTP status both resolve to an
error result value rather than propagating: the transport exception message
becomes the error payload, and on a 4xx/5xx status the response body's JSON
parse is surfaced as the error payload, falling back to the raw error message
string when the body does not parse. -/
theorem GoDaddy.make_request_error_handling (method msg : String)
    (r : GoDaddy.HttpResponse)
    (hm : GoDaddy.supported_method method = true)
    (hs : GoDaddy.raise_for_status_raises r.status = true) :
    GoDaddy.make_request method (GoDaddy.SendResult.exn msg)
        = GoDaddy.Json.obj [("error", GoDaddy.Json.str msg)] ∧
    GoDaddy.make_request method (GoDaddy.SendResult.resp r)
        = (match r.jsonBody with
           | some j => GoDaddy.Json.obj [("error", j)]
           | none => GoDaddy.Json.obj [("error", GoDaddy.Json.str r.httpErrMsg)]) := by
  constructor
  · simp [GoDaddy.make_request, hm]
  · simp [GoDaddy.make_request, hm, hs]

/-- Witness for the amended C3: a timed-out GET and a 404 response whose body
parses as a structured error object. -/
theorem GoDaddy.make_request_error_handling_witness :
    GoDaddy.supported_method "GET" = true ∧
    GoDaddy.raise_for_status_raises 404 = true ∧
    GoDaddy.make_request "GET" (GoDaddy.SendResult.exn "Connection timed out")
        = GoDaddy.Json.obj [("error", GoDaddy.Json.str "Connection timed out")] ∧
    GoDaddy.make_request "GET"
        (GoDaddy.SendResult.resp
          ⟨404, "\x7b\"code\": \"NOT_FOUND\"\x7d",
           some (GoDaddy.Json.obj [("code", GoDaddy.Json.str "NOT_FOUND")]),
           "404 Client Error", "Expecting value"⟩)
        = GoDaddy.Json.obj [("error", GoDaddy.Json.obj [("code", GoDaddy.Json.str "NOT_FOUND")])] :=
  ⟨by decide, by decide,
   (GoDaddy.make_request_error_handling "GET" "Connection timed out"
      ⟨404, "\x7b\"code\": \"NOT_FOUND\"\x7d",
       some (GoDaddy.Json.obj [("code", GoDaddy.Json.str "NOT_FOUND")]),
       "404 Client Error", "Expecting value"⟩ (by decide) (by decide)).1,
   (GoDaddy.make_request_error_handling "GET" "Connection timed out"
      ⟨404, "\x7b\"code\": \"NOT_FOUND\"\x7d",
       some (GoDaddy.Json.obj [("code", GoDaddy.Json.str "NOT_FOUND")]),
       "404 Client Error", "Expecting value"⟩ (by decide) (by decide)).2⟩
